import Mathlib

/-!
Verification development for the x-twitter-bot library (src/index.js).

The JavaScript source drives a rendered web page through a page-driver
capability.  We embed the decision logic shallowly: every DOM read the code
performs becomes a field of an explicit world structure, every page
interaction (navigation, click, typing, upload, recovery) becomes an entry
in an effect trace, and each operation becomes a pure function from the
bot state and a world to a result together with its trace.  JavaScript
strings are modelled as Lean strings over Unicode scalar values; the
UTF-16 unit counting of JavaScript length/slice is abstracted to scalar
counting, which agrees on all inputs considered here.
-/

namespace XBot

/-- The JavaScript whitespace class used by trim and the backslash-s regex
class: tab, line feed, vertical tab, form feed, carriage return, space,
no-break space, ogham space mark, the U+2000 to U+200A band, line and
paragraph separators, narrow no-break space, medium mathematical space,
ideographic space and the byte-order mark. -/
def isJsWhitespace (c : Char) : Bool :=
  let n := c.toNat
  n = 9 || n = 10 || n = 11 || n = 12 || n = 13 || n = 32 ||
  n = 0xA0 || n = 0x1680 || (0x2000 ≤ n && n ≤ 0x200A) ||
  n = 0x2028 || n = 0x2029 || n = 0x202F || n = 0x205F ||
  n = 0x3000 || n = 0xFEFF

/-- Code points removed by normalizeText in postTweet (src/index.js lines
308 to 326): the pictographic and emoji bands, the variation selectors,
the zero-width joiner and the combining enclosing keycap. -/
def isStrippedChar (c : Char) : Bool :=
  let n := c.toNat
  (0x1F600 ≤ n && n ≤ 0x1F64F) || (0x1F300 ≤ n && n ≤ 0x1F5FF) ||
  (0x1F680 ≤ n && n ≤ 0x1F6FF) || (0x1F700 ≤ n && n ≤ 0x1F77F) ||
  (0x1F780 ≤ n && n ≤ 0x1F7FF) || (0x1F800 ≤ n && n ≤ 0x1F8FF) ||
  (0x1F900 ≤ n && n ≤ 0x1F9FF) || (0x1FA00 ≤ n && n ≤ 0x1FA6F) ||
  (0x1FA70 ≤ n && n ≤ 0x1FAFF) || (0x2600 ≤ n && n ≤ 0x26FF) ||
  (0x2700 ≤ n && n ≤ 0x27BF) || (0xFE00 ≤ n && n ≤ 0xFE0F) ||
  n = 0x200D || n = 0x20E3

/-- The trim step of normalizeText: drop whitespace from both ends. -/
def trimChars (l : List Char) : List Char :=
  ((l.dropWhile isJsWhitespace).reverse.dropWhile isJsWhitespace).reverse

/-- Collapse maximal whitespace runs to a single space, as the final
replace of the backslash-s-plus regex with one space does.  The boolean
argument records whether the previous character belonged to a run whose
replacement space is already emitted. -/
def collapseWsAux : Bool → List Char → List Char
  | _, [] => []
  | inRun, c :: rest =>
    if isJsWhitespace c then
      if inRun then collapseWsAux true rest
      else ' ' :: collapseWsAux true rest
    else c :: collapseWsAux false rest

/-- Whitespace-run collapsing on a character list. -/
def collapseWs (l : List Char) : List Char :=
  collapseWsAux false l

/-- normalizeText from postTweet: strip the decorative code points, trim,
then collapse whitespace runs to single spaces. -/
def normalizeChars (l : List Char) : List Char :=
  collapseWs (trimChars (l.filter (fun c => !isStrippedChar c)))

/-- Longest digit prefix of a character list. -/
def digitsPrefix : List Char → List Char
  | [] => []
  | c :: rest => if c.isDigit then c :: digitsPrefix rest else []

/-- If the list starts with the literal slash-status-slash followed by at
least one digit, return that digit run. -/
def statusIdAt (l : List Char) : Option (List Char) :=
  if "/status/".data.isPrefixOf l then
    match digitsPrefix (l.drop 8) with
    | [] => none
    | ds => some ds
  else none

/-- Scan for the first position where the status-id pattern matches, as
the regex match over the permalink href does. -/
def extractStatusIdAux : List Char → Option (List Char)
  | [] => none
  | c :: rest =>
    match statusIdAt (c :: rest) with
    | some ds => some ds
    | none => extractStatusIdAux rest

/-- Extract the numeric identifier from a permalink href, modelling the
match against the slash-status-slash-digits regex in postTweet. -/
def extractStatusId (href : String) : Option String :=
  (extractStatusIdAux href.data).map fun ds => ⟨ds⟩

/-- Containment of a contiguous character run, as the JavaScript includes
method tests: the needle occurs as an infix of the haystack.  An empty
needle is contained everywhere. -/
def containsSeq (needle : List Char) : List Char → Bool
  | [] => needle.isPrefixOf []
  | c :: rest => needle.isPrefixOf (c :: rest) || containsSeq needle rest

/-- One rendered feed cell as postTweet verification reads it: whether the
cell holds a tweet article, the text of its tweetText element when
present, and the href of the permalink anchor that wraps a time element,
when present. -/
structure TweetCell where
  article : Bool
  tweetText : Option String
  statusHref : Option String
  deriving DecidableEq

/-- Result of the feed verification step of postTweet. -/
structure VerifyResult where
  found : Bool
  postId : Option String
  deriving DecidableEq

/-- Does a cell match the normalized search prefix: it must hold an
article with a text element whose normalized text contains the prefix. -/
def cellMatches (search : List Char) (c : TweetCell) : Bool :=
  c.article &&
    match c.tweetText with
    | none => false
    | some t => containsSeq search (normalizeChars t.data)

/-- Walk the candidate cells in order, returning on the first match, with
the post identifier parsed from that cell permalink (an absent permalink
yields the empty href, whose regex match fails). -/
def verifyTweetAux (search : List Char) : List TweetCell → VerifyResult
  | [] => { found := false, postId := none }
  | c :: rest =>
    if cellMatches search c then
      { found := true, postId := extractStatusId ((c.statusHref).getD "") }
    else verifyTweetAux search rest

/-- The feed verification of postTweet (src/index.js lines 306 to 355):
normalize the submitted text, keep its first twenty characters, and scan
the first ten rendered cells for a normalized-containment match. -/
def verifyTweet (text : String) (cells : List TweetCell) : VerifyResult :=
  verifyTweetAux ((normalizeChars text.data).take 20) (cells.take 10)

/-- Observable page interactions and notifications an operation performs,
in order.  Navigation records the timeout budget passed to the page goto
call; recover records an invocation of the recovery routine. -/
inductive Effect where
  | navigate (url : String) (timeoutMs : Nat)
  | clickSel (selector : String)
  | typeInto (selector : String) (content : String)
  | uploadFile (path : String)
  | dismissCompose
  | recover
  | emitEvent (name : String)
  deriving DecidableEq

/-- The bot fields the operations consult: the readiness flag, the
resolved timeout budget and the configured username. -/
structure BotState where
  isReady : Bool
  timeoutMs : Nat
  username : String
  deriving DecidableEq

/-- The constructor assignment of the timeout field (src/index.js line
78): a missing or falsy option falls back to 600000. -/
def resolveTimeout : Option Nat → Nat
  | none => 600000
  | some t => if t = 0 then 600000 else t

/-- The message thrown by the readiness guard, with the inner quotes of
the original dropped. -/
def botNotReadyMsg : String :=
  "Bot not ready. Call .init() and wait for ready event."

/-- Strip one leading at-sign from a handle, as the anchored replace in
followUser and unfollowUser does. -/
def stripAt (u : String) : String :=
  match u.data with
  | '@' :: rest => ⟨rest⟩
  | _ => u

/-- Success payload of postTweet (timestamp omitted: wall-clock). -/
structure PostResult where
  success : Bool
  text : String
  postId : Option String
  deriving DecidableEq

/-- Everything postTweet reads from the page: whether a compose textarea
appears, whether the file input exists, which media paths exist on disk,
whether a rejection dialog fires during an upload, whether the post
button exists, whether the compose surface closes within the poll budget,
the toast text read on failure, and the feed cells scanned during
verification. -/
structure PostWorld where
  textareaFound : Bool
  fileInputFound : Bool
  fileExists : String → Bool
  uploadDialog : String → Bool
  postButtonFound : Bool
  composeCloses : Bool
  toastText : String
  feedCells : List TweetCell

/-- The sequential media-upload loop of postTweet: each path is checked
for existence, uploaded, and then the dialog flag is consulted for an
upload rejection.  Returns the upload effects performed and the error, if
any, that stopped the loop. -/
def mediaLoop (w : PostWorld) : List String → List Effect × Option String
  | [] => ([], none)
  | p :: rest =>
    if w.fileExists p then
      if w.uploadDialog p then
        ([Effect.uploadFile p],
         some "Media upload failed - file may be unsupported or too large")
      else
        let q := mediaLoop w rest
        (Effect.uploadFile p :: q.1, q.2)
    else ([], some ("File not found: " ++ p))

/-- The catch block of postTweet: best-effort recovery, the tweetFailed
notification, and the original error re-raised. -/
def postFail (tr : List Effect) (e : String) :
    Except String PostResult × List Effect :=
  (Except.error e, tr ++ [Effect.recover, Effect.emitEvent "tweetFailed"])

/-- postTweet (src/index.js lines 188 to 384).  The four input guards
run before the try block, so they produce an empty trace and skip both
recovery and the tweetFailed notification; every failure inside the try
block goes through postFail. -/
def postTweetModel (s : BotState) (text : String) (media : List String)
    (w : PostWorld) : Except String PostResult × List Effect :=
  if ¬ s.isReady then (Except.error botNotReadyMsg, [])
  else if text = "" then (Except.error "Tweet text is required", [])
  else if 280 < text.length then
    (Except.error "Tweet exceeds 280 characters", [])
  else if 4 < media.length then
    (Except.error "Maximum 4 media files allowed", [])
  else
    let nav : List Effect :=
      [Effect.navigate "https://x.com/compose/post" s.timeoutMs]
    if ¬ w.textareaFound then postFail nav "Tweet textarea not found"
    else
      let typed := nav ++
        [Effect.clickSel "tweetTextarea_0",
         Effect.typeInto "tweetTextarea_0" text]
      if media.length ≠ 0 ∧ ¬ w.fileInputFound then
        postFail typed "File input not found"
      else
        match mediaLoop w media with
        | (ups, some e) => postFail (typed ++ ups) e
        | (ups, none) =>
          let t2 := typed ++ ups
          if ¬ w.postButtonFound then postFail t2 "Post button not found"
          else
            let t3 := t2 ++ [Effect.clickSel "tweetButton"]
            if ¬ w.composeCloses then
              postFail (t3 ++ [Effect.dismissCompose])
                (if w.toastText = "" then "Tweet could not be posted"
                 else w.toastText)
            else
              let v := verifyTweet text w.feedCells
              if ¬ v.found then
                postFail t3 "Tweet not found in feed after posting"
              else
                (Except.ok { success := true, text := text, postId := v.postId },
                 t3 ++ [Effect.emitEvent "tweetPosted"])

/-- A profile page as followUser and unfollowUser read it: the
empty-state error heading, the canonical UserName landmark, the
unknown-avatar placeholder, the unfollow-suffixed button and its inline
background color when present, the existence of a button whose aria
label contains an at-sign together with a menu affordance, and the
follow-suffixed button. -/
structure ProfileView where
  emptyStateHeader : Bool
  userName : Bool
  avatarUnknown : Bool
  unfollowBtnBg : Option String
  atMenuButton : Bool
  followBtn : Bool
  deriving DecidableEq

/-- The transparent-background test applied to the unfollow-suffixed
button: present and styled with the fully transparent rgba value or the
transparent keyword. -/
def transparentUnfollowBtn (p : ProfileView) : Bool :=
  match p.unfollowBtnBg with
  | some bg => bg = "rgba(0, 0, 0, 0)" || bg = "transparent"
  | none => false

/-- The three-way page-loaded probe (src/index.js lines 732 to 738): an
error heading means absent, the UserName landmark means present, the
unknown-avatar placeholder means absent, and otherwise present. -/
def profileExists (p : ProfileView) : Bool :=
  if p.emptyStateHeader then false
  else if p.userName then true
  else if p.avatarUnknown then false
  else true

/-- Outcome of the follow-state probe. -/
inductive FollowProbe where
  | alreadyFollowing
  | notFollowing
  | unknown
  deriving DecidableEq

/-- The follow-state probe (src/index.js lines 748 to 769 and, with the
affirmative label renamed, lines 864 to 885): a transparent unfollow
control or an at-sign menu button means following; otherwise a follow
button means not following; otherwise unknown. -/
def probeFollowState (p : ProfileView) : FollowProbe :=
  if transparentUnfollowBtn p then FollowProbe.alreadyFollowing
  else if p.atMenuButton then FollowProbe.alreadyFollowing
  else if p.followBtn then FollowProbe.notFollowing
  else FollowProbe.unknown

/-- The post-click confirmation read of followUser (lines 792 to 806):
the same two affirmative signals as the probe, without the follow-button
fallback. -/
def confirmFollowed (p : ProfileView) : Bool :=
  transparentUnfollowBtn p || p.atMenuButton

/-- What followUser reads: the profile page at probe time and the page
state at the verification read after the follow click. -/
structure FollowWorld where
  preProfile : ProfileView
  postProfile : ProfileView
  deriving DecidableEq

/-- Payload of followUser and unfollowUser: the handle with the at-sign
stripped and the status string (timestamp omitted: wall-clock). -/
structure FollowResult where
  username : String
  status : String
  deriving DecidableEq

/-- followUser (src/index.js lines 717 to 823).  The catch block emits
followFailed and re-raises; it performs no cleanup and no recovery. -/
def followUserModel (s : BotState) (username : String) (w : FollowWorld) :
    Except String FollowResult × List Effect :=
  if ¬ s.isReady then (Except.error botNotReadyMsg, [])
  else if username = "" then (Except.error "Username is required", [])
  else
    let u := stripAt username
    let nav : List Effect := [Effect.navigate ("https://x.com/" ++ u) s.timeoutMs]
    if ¬ profileExists w.preProfile then
      (Except.error ("User @" ++ u ++ " not found or account is suspended"),
       nav ++ [Effect.emitEvent "followFailed"])
    else
      match probeFollowState w.preProfile with
      | FollowProbe.alreadyFollowing =>
        (Except.ok { username := u, status := "already_following" }, nav)
      | FollowProbe.unknown =>
        (Except.error ("Could not detect follow button for @" ++ u),
         nav ++ [Effect.emitEvent "followFailed"])
      | FollowProbe.notFollowing =>
        let t := nav ++ [Effect.clickSel "follow-button"]
        if confirmFollowed w.postProfile then
          (Except.ok { username := u, status := "followed" },
           t ++ [Effect.emitEvent "userFollowed"])
        else
          (Except.error ("Follow action for @" ++ u ++ " did not complete"),
           t ++ [Effect.emitEvent "followFailed"])

/-- What unfollowUser reads: the profile at probe time, whether the
confirmation sheet appears after the unfollow click, the contextual menu
and its item texts when that sheet is absent, whether a late
confirmation sheet appears after a menu selection, and the page state at
the final verification read. -/
structure UnfollowWorld where
  preProfile : ProfileView
  confirmSheet1 : Bool
  menuItems : Option (List String)
  confirmSheet2 : Bool
  postProfile : ProfileView

/-- The contextual-menu selection of unfollowUser (lines 948 to 968):
click the first item whose lowercased text contains the at-sign plus the
lowercased handle, falling back to a sole item.  Returns the selector
effects of the click, or none when no item qualifies. -/
def menuSelect (u : String) (items : List String) : Option (List Effect) :=
  match items.find? (fun it =>
      containsSeq ('@' :: u.data.map Char.toLower)
        (it.data.map Char.toLower)) with
  | some _ => some [Effect.clickSel "menuitem"]
  | none =>
    if items.length = 1 then some [Effect.clickSel "menuitem"]
    else none

/-- The two confirmation flows after the unfollow click (lines 937 to
981): the direct confirmation sheet, else the contextual menu selection
followed by an optional late confirmation sheet.  Returns the full trace
up to confirmation, or none when neither flow confirms. -/
def unfollowConfirmTrace (u : String) (w : UnfollowWorld) (t1 : List Effect) :
    Option (List Effect) :=
  if w.confirmSheet1 then some (t1 ++ [Effect.clickSel "confirmationSheetConfirm"])
  else
    match w.menuItems with
    | none => none
    | some items =>
      match menuSelect u items with
      | none => none
      | some sel =>
        some (t1 ++ sel ++
          (if w.confirmSheet2 then [Effect.clickSel "confirmationSheetConfirm"]
           else []))

/-- unfollowUser (src/index.js lines 832 to 1005).  The catch block
emits unfollowFailed and re-raises; no cleanup, no recovery. -/
def unfollowUserModel (s : BotState) (username : String) (w : UnfollowWorld) :
    Except String FollowResult × List Effect :=
  if ¬ s.isReady then (Except.error botNotReadyMsg, [])
  else if username = "" then (Except.error "Username is required", [])
  else
    let u := stripAt username
    let nav : List Effect := [Effect.navigate ("https://x.com/" ++ u) s.timeoutMs]
    if ¬ profileExists w.preProfile then
      (Except.error ("User @" ++ u ++ " not found or account is suspended"),
       nav ++ [Effect.emitEvent "unfollowFailed"])
    else
      match probeFollowState w.preProfile with
      | FollowProbe.notFollowing =>
        (Except.ok { username := u, status := "not_following" }, nav)
      | FollowProbe.unknown =>
        (Except.error ("Could not detect follow/unfollow button for @" ++ u),
         nav ++ [Effect.emitEvent "unfollowFailed"])
      | FollowProbe.alreadyFollowing =>
        let clickEff :=
          if transparentUnfollowBtn w.preProfile then
            [Effect.clickSel "unfollow-button"]
          else [Effect.clickSel "at-menu-button"]
        let t1 := nav ++ clickEff
        match unfollowConfirmTrace u w t1 with
        | none =>
          (Except.error ("Unfollow confirmation not found for @" ++ u),
           t1 ++ [Effect.emitEvent "unfollowFailed"])
        | some t2 =>
          if w.postProfile.followBtn then
            (Except.ok { username := u, status := "unfollowed" },
             t2 ++ [Effect.emitEvent "userUnfollowed"])
          else
            (Except.error ("Unfollow action for @" ++ u ++ " did not complete"),
             t2 ++ [Effect.emitEvent "unfollowFailed"])

/-- What searchAndLike touches: one boolean per rendered like button
stating whether its click call succeeds (false models a click that
throws and is skipped), and, as a spec-side shadow, whether each like
actually registered in the rendered page afterwards. -/
structure SearchWorld where
  likeButtons : List Bool
  /-- Modelled from the spec: the corroborating DOM evidence the
  Verification Engine would observe for each like after clicking.  The
  implementation in src/index.js lines 1009 to 1034 never reads any
  post-click page state, so this field is unused by the model below; it
  exists to state the verification invariant the spec asserts. -/
  likeRegistered : List Bool

/-- Spec-side count of likes the rendered page corroborates. -/
def specRegisteredLikes (w : SearchWorld) : Nat :=
  w.likeRegistered.count true

/-- Payload of searchAndLike. -/
structure SearchResult where
  query : String
  liked : Nat
  deriving DecidableEq

/-- searchAndLike (src/index.js lines 1009 to 1034): navigate to the
live-search page, take at most the requested number of like buttons, and
count every click call that does not throw.  No try-catch around the
whole body, no notification, no recovery, and no post-click read. -/
def searchAndLikeModel (s : BotState) (query : String) (count : Nat)
    (w : SearchWorld) : Except String SearchResult × List Effect :=
  if ¬ s.isReady then (Except.error botNotReadyMsg, [])
  else if query = "" then (Except.error "Search query is required", [])
  else
    let attempts := w.likeButtons.take (min count w.likeButtons.length)
    (Except.ok { query := query, liked := attempts.count true },
     Effect.navigate ("https://x.com/search?q=" ++ query) s.timeoutMs ::
       attempts.map (fun _ => Effect.clickSel "like"))

/-- The optional fields of setupProfile. -/
structure ProfileOptions where
  avatar : Option String := none
  header : Option String := none
  displayName : Option String := none
  bio : Option String := none
  location : Option String := none
  website : Option String := none

/-- What setupProfile reads: file existence for the image paths, whether
the settings page renders its save button in time, how many file inputs
the page exposes, whether the crop-apply button appears, which form
fields are present, and whether the save button is found at click time. -/
structure ProfileWorld where
  fileExists : String → Bool
  pageReady : Bool
  fileInputCount : Nat
  applyButtonPresent : Bool
  fieldPresent : String → Bool
  saveButtonPresent : Bool

/-- Per-field success flags of setupProfile. -/
structure ProfileResult where
  avatar : Bool := false
  header : Bool := false
  displayName : Bool := false
  bio : Bool := false
  location : Bool := false
  website : Bool := false
  saved : Bool := false
  deriving DecidableEq

/-- JavaScript truthiness of an optional string: present and nonempty. -/
def jsTruthy : Option String → Bool
  | some s => s ≠ ""
  | none => false

/-- The clickTestId helper: clicks the element when present and reports
whether it was found. -/
def clickTestIdEff (present : Bool) (id : String) : List Effect :=
  if present then [Effect.clickSel id] else []

/-- The fillProfileField helper (src/index.js lines 1346 to 1360): when
the selector resolves, click, clear via select-all plus backspace, and
retype; report whether the field was found. -/
def fillFieldEff (pw : ProfileWorld) (sel : String) (text : String) :
    Bool × List Effect :=
  if pw.fieldPresent sel then
    (true, [Effect.clickSel sel, Effect.typeInto sel text])
  else (false, [])

/-- One optional text field of setupProfile: applied only when the
option is not undefined (an empty string still counts as provided). -/
def applyTextField (pw : ProfileWorld) (sel : String) :
    Option String → Bool × List Effect
  | none => (false, [])
  | some text => fillFieldEff pw sel text

/-- One image upload of setupProfile: requires the option to be truthy
and at least the given number of file inputs; uploads and then clicks
the crop-apply button when present. -/
def applyImageField (pw : ProfileWorld) (needed : Nat) :
    Option String → Bool × List Effect
  | none => (false, [])
  | some path =>
    if path = "" then (false, [])
    else if needed ≤ pw.fileInputCount then
      (true, Effect.uploadFile path :: clickTestIdEff pw.applyButtonPresent "applyButton")
    else (false, [])

/-- setupProfile (src/index.js lines 1061 to 1161).  The up-front image
path validation runs before the try block (avatar first, then header),
so it produces an empty trace; the catch block emits profileSetupFailed
and re-raises, with no recovery.  The save click result is ignored and
the saved flag set unconditionally afterwards. -/
def setupProfileModel (s : BotState) (o : ProfileOptions) (pw : ProfileWorld) :
    Except String ProfileResult × List Effect :=
  if ¬ s.isReady then (Except.error botNotReadyMsg, [])
  else if jsTruthy o.avatar ∧ ¬ pw.fileExists (o.avatar.getD "") then
    (Except.error ("avatar file not found: " ++ o.avatar.getD ""), [])
  else if jsTruthy o.header ∧ ¬ pw.fileExists (o.header.getD "") then
    (Except.error ("header file not found: " ++ o.header.getD ""), [])
  else
    let nav : List Effect :=
      [Effect.navigate "https://x.com/settings/profile" s.timeoutMs]
    if ¬ pw.pageReady then
      (Except.error "Profile settings page did not load",
       nav ++ [Effect.emitEvent "profileSetupFailed"])
    else
      let hd := applyImageField pw 1 o.header
      let av := applyImageField pw 2 o.avatar
      let dn := applyTextField pw "displayName" o.displayName
      let bi := applyTextField pw "description" o.bio
      let lo := applyTextField pw "location" o.location
      let ws := applyTextField pw "url" o.website
      (Except.ok
        { header := hd.1, avatar := av.1, displayName := dn.1, bio := bi.1,
          location := lo.1, website := ws.1, saved := true },
       nav ++ hd.2 ++ av.2 ++ dn.2 ++ bi.2 ++ lo.2 ++ ws.2 ++
         clickTestIdEff pw.saveButtonPresent "Profile_Save_Button" ++
         [Effect.emitEvent "profileSetup"])

/-- A scraped reply as built by scrapeVisibleComments in getTweetComments
(src/index.js lines 570 to 651). -/
structure RCComment where
  tweetId : Option String := none
  username : String := ""
  handle : String := ""
  text : String := ""
  time : String := ""
  likes : Nat := 0
  replies : Nat := 0
  reposts : Nat := 0
  deriving DecidableEq

/-- The dedup key of a collected reply (line 659): the tweet identifier
when truthy, else the handle joined to the text by an underscore. -/
def commentKey (c : RCComment) : String :=
  match c.tweetId with
  | some id => if id = "" then c.handle ++ "_" ++ c.text else id
  | none => c.handle ++ "_" ++ c.text

/-- One observation the scroll loop makes of the page: the replies the
scan returns and whether the scroll extent grew after scrolling. -/
structure ScanStep where
  visible : List RCComment
  grew : Bool

/-- The merge of one scan into the accumulator (lines 657 to 665): walk
the visible replies in order, insert each unseen key, count the
insertions, and stop as soon as the accumulator reaches the target.
The accumulator is an association list in insertion order, modelling the
JavaScript Map. -/
def mergeComments (target : Nat) :
    List (String × RCComment) → List RCComment → List (String × RCComment) × Nat
  | map, [] => (map, 0)
  | map, c :: rest =>
    let key := commentKey c
    if key ∈ map.map Prod.fst then
      if target ≤ map.length then (map, 0)
      else mergeComments target map rest
    else
      let grown := map ++ [(key, c)]
      if target ≤ grown.length then (grown, 1)
      else
        let p := mergeComments target grown rest
        (p.1, p.2 + 1)

/-- The scroll loop of getTweetComments (lines 654 to 695), one fuel
unit per iteration.  Each iteration scans, merges, and either stops
(target met, or the shared retry counter reaching five after one of the
two stall signals: no new identities, or no scroll-extent growth) or
recurses.  The fuel models no behavior of the source: the theorem
scrollLoopAux_isSome below shows the loop always answers within the
fuel budget getTweetCommentsModel supplies, so the none case is
unreachable there. -/
def scrollLoopAux (env : Nat → ScanStep) (target : Nat) :
    Nat → Nat → List (String × RCComment) → Nat →
    Option (List (String × RCComment) × Bool)
  | 0, _, _, _ => none
  | fuel + 1, k, map, retries =>
    if target ≤ map.length then some (map, false)
    else
      if target ≤ (mergeComments target map (env k).visible).1.length then
        some ((mergeComments target map (env k).visible).1, false)
      else if (mergeComments target map (env k).visible).2 = 0 then
        if 5 ≤ retries + 1 then
          some ((mergeComments target map (env k).visible).1, true)
        else if (env k).grew then
          scrollLoopAux env target fuel (k + 1)
            (mergeComments target map (env k).visible).1 (retries + 1)
        else if 5 ≤ retries + 2 then
          some ((mergeComments target map (env k).visible).1, true)
        else
          scrollLoopAux env target fuel (k + 1)
            (mergeComments target map (env k).visible).1 (retries + 2)
      else
        if (env k).grew then
          scrollLoopAux env target fuel (k + 1)
            (mergeComments target map (env k).visible).1 0
        else
          scrollLoopAux env target fuel (k + 1)
            (mergeComments target map (env k).visible).1 1

/-- The clamp of the requested count (line 563): the page-reported reply
total caps the request when that total is truthy. -/
def targetCount (count actual : Nat) : Nat :=
  min count (if actual = 0 then count else actual)

/-- Result shape of getTweetComments. -/
structure CommentsResult where
  requested : Nat
  actualReplyCount : Nat
  collected : Nat
  scrollBlocked : Bool
  comments : List RCComment
  deriving DecidableEq

/-- getTweetComments (src/index.js lines 539 to 708) after navigation:
the reply total is read from the page, the request clamped, the scroll
loop run, and the collected values sliced to the target.  The fuel
supplied is six times the target plus six, which the termination theorem
shows is always enough; the fallback arm is therefore dead. -/
def getTweetCommentsModel (env : Nat → ScanStep) (count actual : Nat) :
    CommentsResult :=
  let target := targetCount count actual
  match scrollLoopAux env target (6 * target + 6) 0 [] 0 with
  | some (map, blocked) =>
    { requested := count, actualReplyCount := actual,
      collected := (map.take target).length, scrollBlocked := blocked,
      comments := (map.take target).map Prod.snd }
  | none =>
    { requested := count, actualReplyCount := actual, collected := 0,
      scrollBlocked := true, comments := [] }

/-- The login-redirect test of init (lines 152 and 166): the current URL
contains the login path or the login-flow path. -/
def urlIsLogin (u : String) : Bool :=
  containsSeq "/login".data u.data || containsSeq "/i/flow/login".data u.data

/-- What init encounters: a failure anywhere in the launch-and-setup
phase, a failure of the home navigation, the URL after landing, whether
the logged-in sidebar landmark appears within its wait, and the URL read
again when it does not. -/
structure InitWorld where
  launchFail : Option String
  gotoFail : Option String
  url : String
  hasProfile : Bool
  recheckUrl : String

/-- init (src/index.js lines 90 to 180).  A ready bot returns at once
with no effects.  Otherwise the whole body sits in a try block whose
catch emits the error notification and still returns the instance, so
no input rejects; a login redirect emits loginRequired; the readiness
flag is set on the remaining path. -/
def initModel (s : BotState) (w : InitWorld) : BotState × List Effect :=
  if s.isReady then (s, [])
  else
    match w.launchFail with
    | some _ => (s, [Effect.emitEvent "error"])
    | none =>
      let t1 : List Effect :=
        [Effect.emitEvent "browserLaunched",
         Effect.navigate "https://x.com/home" s.timeoutMs]
      match w.gotoFail with
      | some _ => (s, t1 ++ [Effect.emitEvent "error"])
      | none =>
        if urlIsLogin w.url then
          ({ s with isReady := false }, t1 ++ [Effect.emitEvent "loginRequired"])
        else if ¬ w.hasProfile ∧ urlIsLogin w.recheckUrl then
          ({ s with isReady := false }, t1 ++ [Effect.emitEvent "loginRequired"])
        else
          ({ s with isReady := true }, t1 ++ [Effect.emitEvent "ready"])

/-- Every navigation effect in the trace carries the given timeout. -/
def navsUse (tmo : Nat) (tr : List Effect) : Prop :=
  ∀ u t, Effect.navigate u t ∈ tr → t = tmo

/-- Every stored accumulator entry is keyed by the identity of the reply
it holds. -/
def keyCoherent (map : List (String × RCComment)) : Prop :=
  ∀ e ∈ map, e.1 = commentKey e.2

/-! Theorems. -/

theorem verifyTweetAux_eq_find (search : List Char) (cells : List TweetCell) :
    verifyTweetAux search cells =
      match cells.find? (cellMatches search) with
      | some c =>
        { found := true, postId := extractStatusId ((c.statusHref).getD "") }
      | none => { found := false, postId := none } := by
  induction cells with
  | nil => rfl
  | cons c rest ih =>
    by_cases h : cellMatches search c
    · simp [verifyTweetAux, List.find?_cons, h]
    · simp [verifyTweetAux, List.find?_cons, h, ih]

/-- C6: postTweet verification normalizes the submitted text and each
rendered candidate by stripping the pictographic and emoji ranges,
variation selectors, joiners and keycap combiners and collapsing
whitespace, then matches the first twenty normalized characters of the
submitted text against the first ten rendered feed cells, the first
match winning and its permalink parsed for a numeric identifier; no
match within those cells yields found false.  In particular the
scenario: posting the hello-world text with a robot emoji against a
feed whose item reads the plain hello-world text yields found true with
the identifier from that item permalink. -/
theorem postTweet_verification_matching :
    (∀ (text : String) (cells : List TweetCell),
      verifyTweet text cells =
        match (cells.take 10).find?
            (cellMatches ((normalizeChars text.data).take 20)) with
        | some c =>
          { found := true, postId := extractStatusId ((c.statusHref).getD "") }
        | none => { found := false, postId := none }) ∧
    verifyTweet "Hello world! 🤖"
        [{ article := true, tweetText := some "Hello world!",
           statusHref := some "/user/status/12345" }] =
      { found := true, postId := some "12345" } := by
  refine ⟨fun text cells => verifyTweetAux_eq_find _ _, ?_⟩
  decide

theorem probe_of_confirm {p : ProfileView} (h : confirmFollowed p = true) :
    probeFollowState p = FollowProbe.alreadyFollowing := by
  have h' : transparentUnfollowBtn p = true ∨ p.atMenuButton = true := by
    simpa [confirmFollowed] using h
  unfold probeFollowState
  rcases h' with h1 | h2
  · simp [h1]
  · by_cases ht : transparentUnfollowBtn p <;> simp [ht, h2]

theorem followUserModel_ok_followed {s : BotState} {u : String}
    {w : FollowWorld} {r : FollowResult}
    (h : (followUserModel s u w).1 = Except.ok r)
    (hst : r.status = "followed") :
    s.isReady = true ∧ u ≠ "" ∧ confirmFollowed w.postProfile = true := by
  by_cases hready : s.isReady = true
  · by_cases hu : u = ""
    · simp [followUserModel, hready, hu] at h
    · by_cases hex : profileExists w.preProfile = true
      · cases hprobe : probeFollowState w.preProfile with
        | alreadyFollowing =>
          simp [followUserModel, hready, hu, hex, hprobe] at h
          rw [← h] at hst
          have hbad : ("already_following" : String) = "followed" := hst
          exact absurd hbad (by decide)
        | unknown =>
          simp [followUserModel, hready, hu, hex, hprobe] at h
        | notFollowing =>
          by_cases hconf : confirmFollowed w.postProfile = true
          · exact ⟨hready, hu, hconf⟩
          · simp [followUserModel, hready, hu, hex, hprobe, hconf] at h
      · simp [followUserModel, hready, hu, hex] at h
  · simp [followUserModel, hready] at h

/-- C3: follow and unfollow are idempotent no-ops on an already-satisfied
state: a profile already showing the followed state (transparent
unfollow control or at-sign menu button) makes followUser return the
already-following status with zero clicks, so following twice yields
followed then already-following with no interaction on the second call,
and unfollowUser symmetrically returns the not-following status with no
click when a follow button is shown. -/
theorem follow_unfollow_idempotent :
    (∀ (s : BotState) (u : String) (w : FollowWorld),
      s.isReady = true → u ≠ "" →
      profileExists w.preProfile = true →
      probeFollowState w.preProfile = FollowProbe.alreadyFollowing →
      followUserModel s u w =
        (Except.ok { username := stripAt u, status := "already_following" },
         [Effect.navigate ("https://x.com/" ++ stripAt u) s.timeoutMs])) ∧
    (∀ (s : BotState) (u : String) (w1 w2 : FollowWorld) (r : FollowResult),
      (followUserModel s u w1).1 = Except.ok r → r.status = "followed" →
      profileExists w2.preProfile = true →
      w2.preProfile = w1.postProfile →
      followUserModel s u w2 =
        (Except.ok { username := stripAt u, status := "already_following" },
         [Effect.navigate ("https://x.com/" ++ stripAt u) s.timeoutMs])) ∧
    (∀ (s : BotState) (u : String) (w : UnfollowWorld),
      s.isReady = true → u ≠ "" →
      profileExists w.preProfile = true →
      probeFollowState w.preProfile = FollowProbe.notFollowing →
      unfollowUserModel s u w =
        (Except.ok { username := stripAt u, status := "not_following" },
         [Effect.navigate ("https://x.com/" ++ stripAt u) s.timeoutMs])) := by
  refine ⟨?_, ?_, ?_⟩
  · intro s u w hready hu hex hprobe
    unfold followUserModel
    simp [hready, hu, hex, hprobe]
  · intro s u w1 w2 r h hst hex hpre
    obtain ⟨hready, hu, hconf⟩ := followUserModel_ok_followed h hst
    have hprobe : probeFollowState w2.preProfile = FollowProbe.alreadyFollowing := by
      rw [hpre]; exact probe_of_confirm hconf
    unfold followUserModel
    simp [hready, hu, hex, hprobe]
  · intro s u w hready hu hex hprobe
    unfold unfollowUserModel
    simp [hready, hu, hex, hprobe]

theorem follow_unfollow_idempotent_witness :
    followUserModel { isReady := true, timeoutMs := 600000, username := "me" }
        "@user"
        { preProfile :=
            { emptyStateHeader := false, userName := true, avatarUnknown := false,
              unfollowBtnBg := some "transparent", atMenuButton := false,
              followBtn := false },
          postProfile :=
            { emptyStateHeader := false, userName := true, avatarUnknown := false,
              unfollowBtnBg := none, atMenuButton := false, followBtn := false } } =
      (Except.ok { username := stripAt "@user", status := "already_following" },
       [Effect.navigate ("https://x.com/" ++ stripAt "@user") 600000]) :=
  follow_unfollow_idempotent.1 _ _ _ rfl (by decide) (by decide) (by decide)

/-- C8: when the follow-state probe resolves neither signal, followUser
and unfollowUser fail the operation with an error and perform no click:
an unresolved probe is never defaulted to success and never treated as
not-yet-done by acting. -/
theorem ambiguous_probe_is_fatal :
    (∀ (s : BotState) (u : String) (w : FollowWorld),
      s.isReady = true → u ≠ "" →
      profileExists w.preProfile = true →
      probeFollowState w.preProfile = FollowProbe.unknown →
      (followUserModel s u w).1 =
        Except.error ("Could not detect follow button for @" ++ stripAt u) ∧
      ∀ sel, Effect.clickSel sel ∉ (followUserModel s u w).2) ∧
    (∀ (s : BotState) (u : String) (w : UnfollowWorld),
      s.isReady = true → u ≠ "" →
      profileExists w.preProfile = true →
      probeFollowState w.preProfile = FollowProbe.unknown →
      (unfollowUserModel s u w).1 =
        Except.error ("Could not detect follow/unfollow button for @" ++ stripAt u) ∧
      ∀ sel, Effect.clickSel sel ∉ (unfollowUserModel s u w).2) := by
  constructor
  · intro s u w hready hu hex hprobe
    unfold followUserModel
    simp [hready, hu, hex, hprobe]
  · intro s u w hready hu hex hprobe
    unfold unfollowUserModel
    simp [hready, hu, hex, hprobe]

theorem ambiguous_probe_is_fatal_witness :
    (followUserModel { isReady := true, timeoutMs := 600000, username := "me" }
        "user"
        { preProfile :=
            { emptyStateHeader := false, userName := true, avatarUnknown := false,
              unfollowBtnBg := none, atMenuButton := false, followBtn := false },
          postProfile :=
            { emptyStateHeader := false, userName := true, avatarUnknown := false,
              unfollowBtnBg := none, atMenuButton := false, followBtn := false } }).1 =
      Except.error ("Could not detect follow button for @" ++ stripAt "user") :=
  (ambiguous_probe_is_fatal.1 _ _ _ rfl (by decide) (by decide) (by decide)).1

theorem unfollowUserModel_ok_unfollowed {s : BotState} {u : String}
    {w : UnfollowWorld} {r : FollowResult}
    (h : (unfollowUserModel s u w).1 = Except.ok r)
    (hst : r.status = "unfollowed") :
    w.postProfile.followBtn = true := by
  by_cases hready : s.isReady = true
  · by_cases hu : u = ""
    · simp [unfollowUserModel, hready, hu] at h
    · by_cases hex : profileExists w.preProfile = true
      · cases hprobe : probeFollowState w.preProfile with
        | notFollowing =>
          simp [unfollowUserModel, hready, hu, hex, hprobe] at h
          rw [← h] at hst
          have hbad : ("not_following" : String) = "unfollowed" := hst
          exact absurd hbad (by decide)
        | unknown =>
          simp [unfollowUserModel, hready, hu, hex, hprobe] at h
        | alreadyFollowing =>
          by_cases hbtn : w.postProfile.followBtn = true
          · exact hbtn
          · exfalso
            revert h
            rw [unfollowUserModel]
            simp only [hready, hu, hex, hprobe]
            repeat' split
            all_goals simp [hbtn]
      · simp [unfollowUserModel, hready, hu, hex] at h
  · simp [unfollowUserModel, hready] at h

theorem postTweetModel_ok_found {s : BotState} {text : String}
    {media : List String} {w : PostWorld} {r : PostResult}
    (h : (postTweetModel s text media w).1 = Except.ok r) :
    (verifyTweet text w.feedCells).found = true := by
  by_cases hv : (verifyTweet text w.feedCells).found = true
  · exact hv
  · exfalso
    revert h
    rw [postTweetModel]
    repeat' split
    all_goals simp_all [postFail]

/-- C1 amended: for postTweet, followUser and unfollowUser a success
outcome with the acting status is produced only after the implementation
re-derives corroborating evidence from the rendered DOM distinct from
the click: a successful postTweet requires the feed-verification scan to
find the tweet, a followed status requires the post-click follow-state
confirmation, and an unfollowed status requires the follow button to
reappear.  searchAndLike and setupProfile are excluded: the liked count
counts click successes alone and the saved flag is set without any
post-click read, as the counterexample shows. -/
theorem success_requires_dom_evidence :
    (∀ (s : BotState) (text : String) (media : List String) (w : PostWorld)
        (r : PostResult),
      (postTweetModel s text media w).1 = Except.ok r →
      (verifyTweet text w.feedCells).found = true) ∧
    (∀ (s : BotState) (u : String) (w : FollowWorld) (r : FollowResult),
      (followUserModel s u w).1 = Except.ok r → r.status = "followed" →
      confirmFollowed w.postProfile = true) ∧
    (∀ (s : BotState) (u : String) (w : UnfollowWorld) (r : FollowResult),
      (unfollowUserModel s u w).1 = Except.ok r → r.status = "unfollowed" →
      w.postProfile.followBtn = true) := by
  refine ⟨?_, ?_, ?_⟩
  · intro s text media w r h
    exact postTweetModel_ok_found h
  · intro s u w r h hst
    exact (followUserModel_ok_followed h hst).2.2
  · intro s u w r h hst
    exact unfollowUserModel_ok_unfollowed h hst

/-- C1 counterexample: the claim quantifies over searchAndLike and
setupProfile as well, and both emit success from the click alone.  With
one like button whose click succeeds while the rendered page shows no
like registered, searchAndLike reports one like against zero
corroborated; and setupProfile reports saved true although the save
button was never even found, so no click and no confirming read
happened. -/
theorem click_only_success_counterexample :
    (searchAndLikeModel { isReady := true, timeoutMs := 600000, username := "me" }
        "nodejs" 5 { likeButtons := [true], likeRegistered := [false] }).1 =
      Except.ok { query := "nodejs", liked := 1 } ∧
    specRegisteredLikes { likeButtons := [true], likeRegistered := [false] } = 0 ∧
    (setupProfileModel { isReady := true, timeoutMs := 600000, username := "me" }
        {}
        { fileExists := fun _ => false, pageReady := true, fileInputCount := 0,
          applyButtonPresent := false, fieldPresent := fun _ => false,
          saveButtonPresent := false }).1 =
      Except.ok { saved := true } ∧
    Effect.clickSel "Profile_Save_Button" ∉
      (setupProfileModel { isReady := true, timeoutMs := 600000, username := "me" }
        {}
        { fileExists := fun _ => false, pageReady := true, fileInputCount := 0,
          applyButtonPresent := false, fieldPresent := fun _ => false,
          saveButtonPresent := false }).2 := by
  refine ⟨rfl, rfl, rfl, ?_⟩
  decide

theorem success_requires_dom_evidence_witness :
    (verifyTweet "hi"
        [{ article := true, tweetText := some "hi",
           statusHref := some "/u/status/7" }]).found = true ∧
    confirmFollowed
      { emptyStateHeader := false, userName := true, avatarUnknown := false,
        unfollowBtnBg := some "transparent", atMenuButton := false,
        followBtn := false } = true := by
  constructor
  · exact success_requires_dom_evidence.1
      { isReady := true, timeoutMs := 600000, username := "me" } "hi" []
      { textareaFound := true, fileInputFound := true,
        fileExists := fun _ => true, uploadDialog := fun _ => false,
        postButtonFound := true, composeCloses := true, toastText := "",
        feedCells :=
          [{ article := true, tweetText := some "hi",
             statusHref := some "/u/status/7" }] }
      { success := true, text := "hi", postId := some "7" } rfl
  · exact success_requires_dom_evidence.2.1
      { isReady := true, timeoutMs := 600000, username := "me" } "user"
      { preProfile :=
          { emptyStateHeader := false, userName := true, avatarUnknown := false,
            unfollowBtnBg := none, atMenuButton := false, followBtn := true },
        postProfile :=
          { emptyStateHeader := false, userName := true, avatarUnknown := false,
            unfollowBtnBg := some "transparent", atMenuButton := false,
            followBtn := false } }
      { username := "user", status := "followed" } rfl rfl

/-- C7 amended: postTweet attempts cleanup and invokes Recovery on every
failure path inside its interaction phase before the typed failure is
re-raised, and the result then carries the original failure reason; but
the followUser and unfollowUser failure paths never invoke Recovery at
all — their catch blocks only emit the failure notification and
re-raise. -/
theorem failure_path_recovery_policy :
    (∀ (s : BotState) (text : String) (media : List String) (w : PostWorld)
        (e : String),
      s.isReady = true → text ≠ "" → text.length ≤ 280 →
      media.length ≤ 4 →
      (postTweetModel s text media w).1 = Except.error e →
      Effect.recover ∈ (postTweetModel s text media w).2 ∧
      Effect.emitEvent "tweetFailed" ∈ (postTweetModel s text media w).2) ∧
    (∀ (s : BotState) (u : String) (w : FollowWorld),
      Effect.recover ∉ (followUserModel s u w).2) ∧
    (∀ (s : BotState) (u : String) (w : UnfollowWorld),
      Effect.recover ∉ (unfollowUserModel s u w).2) := by
  refine ⟨?_, ?_, ?_⟩
  · intro s text media w e hready htext hlen hmedia h
    have h1 : ¬ (280 < text.length) := Nat.not_lt.mpr hlen
    have h2 : ¬ (4 < media.length) := Nat.not_lt.mpr hmedia
    rw [postTweetModel] at h ⊢
    simp only [hready, htext, h1, h2, eq_self_iff_true, not_true, if_true,
      if_false, not_false_iff] at h ⊢
    clear h1 h2 hlen hmedia
    obtain ⟨ta, fi, fe, ud, pb, cc, tt, fc⟩ := w
    revert h
    rcases hml : mediaLoop ⟨ta, fi, fe, ud, pb, cc, tt, fc⟩ media with ⟨ups, err⟩
    by_cases hme : media = [] <;>
      cases ta <;> cases fi <;> cases pb <;> cases cc <;>
      rcases err with _ | e2 <;>
      by_cases hv : (verifyTweet text fc).found = false <;>
      intro h <;>
      simp_all [postFail, mediaLoop]
  · intro s u w
    rw [followUserModel]
    repeat' split
    all_goals simp
  · intro s u w
    have hsel : ∀ items sel, menuSelect (stripAt u) items = some sel →
        Effect.recover ∉ sel := by
      intro items sel hms
      rw [menuSelect] at hms
      split at hms
      · cases hms; simp
      · split at hms
        · cases hms; simp
        · simp at hms
    have hconf : ∀ t1 t2, Effect.recover ∉ t1 →
        unfollowConfirmTrace (stripAt u) w t1 = some t2 →
        Effect.recover ∉ t2 := by
      intro t1 t2 h1 h2
      rw [unfollowConfirmTrace] at h2
      split at h2
      · cases h2
        simp [h1]
      · split at h2
        · simp at h2
        · split at h2
          · simp at h2
          · rename_i sel hms
            cases h2
            have h3 := hsel _ _ hms
            by_cases hc2 : w.confirmSheet2 = true <;> simp [hc2, h1, h3]
    rw [unfollowUserModel]
    repeat' split
    all_goals try simp
    all_goals split
    all_goals try simp
    all_goals rename_i t2 heq
    all_goals exact hconf _ _ (by simp) heq

/-- C7 counterexample: a followUser failure (target profile absent)
re-raises after emitting followFailed, with no cleanup and no Recovery
invocation anywhere in its trace, contradicting the claim that every
per-operation failure path invokes Recovery. -/
theorem follow_failure_no_recovery_counterexample :
    followUserModel { isReady := true, timeoutMs := 600000, username := "me" }
        "ghost"
        { preProfile :=
            { emptyStateHeader := true, userName := false, avatarUnknown := false,
              unfollowBtnBg := none, atMenuButton := false, followBtn := false },
          postProfile :=
            { emptyStateHeader := true, userName := false, avatarUnknown := false,
              unfollowBtnBg := none, atMenuButton := false, followBtn := false } } =
      (Except.error "User @ghost not found or account is suspended",
       [Effect.navigate "https://x.com/ghost" 600000,
        Effect.emitEvent "followFailed"]) ∧
    Effect.recover ∉
      (followUserModel { isReady := true, timeoutMs := 600000, username := "me" }
        "ghost"
        { preProfile :=
            { emptyStateHeader := true, userName := false, avatarUnknown := false,
              unfollowBtnBg := none, atMenuButton := false, followBtn := false },
          postProfile :=
            { emptyStateHeader := true, userName := false, avatarUnknown := false,
              unfollowBtnBg := none, atMenuButton := false,
              followBtn := false } }).2 := by
  refine ⟨rfl, ?_⟩
  decide

theorem failure_path_recovery_policy_witness :
    Effect.recover ∈
      (postTweetModel { isReady := true, timeoutMs := 600000, username := "me" }
        "hi" []
        { textareaFound := false, fileInputFound := true,
          fileExists := fun _ => true, uploadDialog := fun _ => false,
          postButtonFound := true, composeCloses := true, toastText := "",
          feedCells := [] }).2 :=
  (failure_path_recovery_policy.1
    { isReady := true, timeoutMs := 600000, username := "me" } "hi" []
    { textareaFound := false, fileInputFound := true,
      fileExists := fun _ => true, uploadDialog := fun _ => false,
      postButtonFound := true, composeCloses := true, toastText := "",
      feedCells := [] }
    "Tweet textarea not found" rfl (by decide) (by decide) (by decide) rfl).1

/-- C2 amended: empty text, oversized text and more than four media
files are rejected by postTweet before any page interaction, with an
empty trace and no Recovery; but a media path naming a missing file is
detected only inside the interaction phase, after navigation and typing
have already happened, and that failure path does invoke Recovery. -/
theorem publish_precondition_rejection :
    (∀ (s : BotState) (media : List String) (w : PostWorld),
      s.isReady = true →
      postTweetModel s "" media w =
        (Except.error "Tweet text is required", [])) ∧
    (∀ (s : BotState) (text : String) (media : List String) (w : PostWorld),
      s.isReady = true → text ≠ "" → 280 < text.length →
      postTweetModel s text media w =
        (Except.error "Tweet exceeds 280 characters", [])) ∧
    (∀ (s : BotState) (text : String) (media : List String) (w : PostWorld),
      s.isReady = true → text ≠ "" → text.length ≤ 280 →
      4 < media.length →
      postTweetModel s text media w =
        (Except.error "Maximum 4 media files allowed", [])) ∧
    (∀ (s : BotState) (text p : String) (rest : List String) (w : PostWorld),
      s.isReady = true → text ≠ "" → text.length ≤ 280 →
      (p :: rest).length ≤ 4 →
      w.textareaFound = true → w.fileInputFound = true →
      w.fileExists p = false →
      (postTweetModel s text (p :: rest) w).1 =
        Except.error ("File not found: " ++ p) ∧
      Effect.recover ∈ (postTweetModel s text (p :: rest) w).2 ∧
      Effect.navigate "https://x.com/compose/post" s.timeoutMs ∈
        (postTweetModel s text (p :: rest) w).2 ∧
      Effect.typeInto "tweetTextarea_0" text ∈
        (postTweetModel s text (p :: rest) w).2) := by
  refine ⟨?_, ?_, ?_, ?_⟩
  · intro s media w hready
    simp [postTweetModel, hready]
  · intro s text media w hready htext hlen
    simp [postTweetModel, hready, htext, hlen]
  · intro s text media w hready htext hlen hmedia
    have h1 : ¬ (280 < text.length) := Nat.not_lt.mpr hlen
    simp [postTweetModel, hready, htext, h1, hmedia]
  · intro s text p rest w hready htext hlen hmedia hta hfi hp
    have h1 : ¬ (280 < text.length) := Nat.not_lt.mpr hlen
    have h2 : ¬ (4 < (p :: rest).length) := Nat.not_lt.mpr hmedia
    have hml : mediaLoop w (p :: rest) =
        ([], some ("File not found: " ++ p)) := by
      simp [mediaLoop, hp]
    simp [postTweetModel, postFail, hready, htext, h1, h2, hta, hfi, hml]
    have h2x : ¬ (4 < rest.length + 1) := by simpa using h2
    rw [if_neg h2x]
    simp

/-- C2 counterexample: a postTweet call whose only invalid input is a
missing media file is not rejected up front — the trace shows
navigation, clicking and typing before the failure, and the failure
path invokes Recovery, contradicting the claim that every invalid input
is rejected before any page interaction with Recovery never invoked. -/
theorem media_precondition_counterexample :
    postTweetModel { isReady := true, timeoutMs := 600000, username := "me" }
        "hi" ["missing.png"]
        { textareaFound := true, fileInputFound := true,
          fileExists := fun _ => false, uploadDialog := fun _ => false,
          postButtonFound := true, composeCloses := true, toastText := "",
          feedCells := [] } =
      (Except.error "File not found: missing.png",
       [Effect.navigate "https://x.com/compose/post" 600000,
        Effect.clickSel "tweetTextarea_0",
        Effect.typeInto "tweetTextarea_0" "hi",
        Effect.recover, Effect.emitEvent "tweetFailed"]) := by
  rfl

theorem publish_precondition_rejection_witness :
    postTweetModel { isReady := true, timeoutMs := 600000, username := "me" }
        "" []
        { textareaFound := true, fileInputFound := true,
          fileExists := fun _ => true, uploadDialog := fun _ => false,
          postButtonFound := true, composeCloses := true, toastText := "",
          feedCells := [] } =
      (Except.error "Tweet text is required", []) :=
  publish_precondition_rejection.1
    { isReady := true, timeoutMs := 600000, username := "me" } []
    { textareaFound := true, fileInputFound := true,
      fileExists := fun _ => true, uploadDialog := fun _ => false,
      postButtonFound := true, composeCloses := true, toastText := "",
      feedCells := [] } rfl

theorem mergeComments_length (target : Nat) (v : List RCComment) :
    ∀ map, (mergeComments target map v).1.length =
      map.length + (mergeComments target map v).2 := by
  induction v with
  | nil => intro map; simp [mergeComments]
  | cons c rest ih =>
    intro map
    rw [mergeComments]
    by_cases hmem : commentKey c ∈ map.map Prod.fst
    · by_cases ht : target ≤ map.length
      · simp [hmem, ht]
      · simp [hmem, ht, ih]
    · by_cases ht : target ≤ map.length + 1
      · simp [hmem, ht]
      · have hgrown := ih (map ++ [(commentKey c, c)])
        simp only [List.length_append, List.length_singleton] at hgrown
        simp [hmem, ht, hgrown]
        omega

theorem mergeComments_le (target : Nat) (v : List RCComment) :
    ∀ map, map.length < target → (mergeComments target map v).1.length ≤ target := by
  induction v with
  | nil => intro map hlt; simp [mergeComments]; omega
  | cons c rest ih =>
    intro map hlt
    rw [mergeComments]
    by_cases hmem : commentKey c ∈ map.map Prod.fst
    · by_cases ht : target ≤ map.length
      · simp [hmem, ht]; omega
      · simp [hmem, ht, ih map hlt]
    · by_cases ht : target ≤ map.length + 1
      · simp [hmem, ht]
        omega
      · have hlt2 : (map ++ [(commentKey c, c)]).length < target := by
          simp only [List.length_append, List.length_singleton]
          omega
        simp [hmem, ht, ih (map ++ [(commentKey c, c)]) hlt2]

theorem mergeComments_nodup (target : Nat) (v : List RCComment) :
    ∀ map, ((map.map Prod.fst).Nodup) →
      ((mergeComments target map v).1.map Prod.fst).Nodup := by
  induction v with
  | nil => intro map hnd; simpa [mergeComments] using hnd
  | cons c rest ih =>
    intro map hnd
    rw [mergeComments]
    have hnd2 : (((map ++ [(commentKey c, c)]).map Prod.fst).Nodup) ∨
        commentKey c ∈ map.map Prod.fst := by
      by_cases hmem : commentKey c ∈ map.map Prod.fst
      · exact Or.inr hmem
      · refine Or.inl ?_
        rw [List.map_append]
        simp [List.nodup_append, hnd, hmem]
    by_cases hmem : commentKey c ∈ map.map Prod.fst
    · by_cases ht : target ≤ map.length
      · simp [hmem, ht, hnd]
      · simp [hmem, ht, ih map hnd]
    · rcases hnd2 with hnd2 | hnd2
      · by_cases ht : target ≤ map.length + 1
        · simp [hmem, ht]
          simpa using hnd2
        · simp [hmem, ht]
          simpa using ih (map ++ [(commentKey c, c)]) hnd2
      · exact absurd hnd2 hmem

theorem mergeComments_coherent (target : Nat) (v : List RCComment) :
    ∀ map, keyCoherent map → keyCoherent (mergeComments target map v).1 := by
  induction v with
  | nil => intro map hco; simpa [mergeComments] using hco
  | cons c rest ih =>
    intro map hco
    have hco2 : keyCoherent (map ++ [(commentKey c, c)]) := by
      intro e he
      rcases List.mem_append.mp he with h | h
      · exact hco e h
      · simp at h; subst h; rfl
    rw [mergeComments]
    by_cases hmem : commentKey c ∈ map.map Prod.fst
    · by_cases ht : target ≤ map.length
      · simpa [hmem, ht] using hco
      · simpa [hmem, ht] using ih map hco
    · by_cases ht : target ≤ map.length + 1
      · simpa [hmem, ht] using hco2
      · simpa [hmem, ht] using ih (map ++ [(commentKey c, c)]) hco2

theorem scrollLoopAux_inv (env : Nat → ScanStep) (target : Nat) :
    ∀ fuel k map retries m b,
      map.length ≤ target → ((map.map Prod.fst).Nodup) → keyCoherent map →
      scrollLoopAux env target fuel k map retries = some (m, b) →
      m.length ≤ target ∧ ((m.map Prod.fst).Nodup) ∧ keyCoherent m ∧
        (b = true → m.length < target) ∧ (b = false → m.length = target) := by
  intro fuel
  induction fuel with
  | zero =>
    intro k map retries m b _ _ _ h
    simp [scrollLoopAux] at h
  | succ fuel ih =>
    intro k map retries m b hlen hnd hco h
    rw [scrollLoopAux] at h
    by_cases hguard : target ≤ map.length
    · rw [if_pos hguard] at h
      simp only [Option.some.injEq, Prod.mk.injEq] at h
      obtain ⟨h1, h2⟩ := h
      subst h1; subst h2
      refine ⟨hlen, hnd, hco, ?_, ?_⟩
      · intro hb; simp at hb
      · intro _; omega
    · rw [if_neg hguard] at h
      have hlt : map.length < target := by omega
      have hple := mergeComments_le target (env k).visible map hlt
      have hpnd := mergeComments_nodup target (env k).visible map hnd
      have hpco := mergeComments_coherent target (env k).visible map hco
      by_cases hq : target ≤ (mergeComments target map (env k).visible).1.length
      · rw [if_pos hq] at h
        simp only [Option.some.injEq, Prod.mk.injEq] at h
        obtain ⟨h1, h2⟩ := h
        subst h1; subst h2
        refine ⟨hple, hpnd, hpco, ?_, ?_⟩
        · intro hb; simp at hb
        · intro _; omega
      · rw [if_neg hq] at h
        by_cases hz : (mergeComments target map (env k).visible).2 = 0
        · rw [if_pos hz] at h
          by_cases hr1 : 5 ≤ retries + 1
          · rw [if_pos hr1] at h
            simp only [Option.some.injEq, Prod.mk.injEq] at h
            obtain ⟨h1, h2⟩ := h
            subst h1; subst h2
            refine ⟨hple, hpnd, hpco, ?_, ?_⟩
            · intro _; omega
            · intro hb; simp at hb
          · rw [if_neg hr1] at h
            by_cases hg : (env k).grew = true
            · rw [if_pos hg] at h
              exact ih (k + 1) _ (retries + 1) m b hple hpnd hpco h
            · rw [if_neg hg] at h
              by_cases hr2 : 5 ≤ retries + 2
              · rw [if_pos hr2] at h
                simp only [Option.some.injEq, Prod.mk.injEq] at h
                obtain ⟨h1, h2⟩ := h
                subst h1; subst h2
                refine ⟨hple, hpnd, hpco, ?_, ?_⟩
                · intro _; omega
                · intro hb; simp at hb
              · rw [if_neg hr2] at h
                exact ih (k + 1) _ (retries + 2) m b hple hpnd hpco h
        · rw [if_neg hz] at h
          by_cases hg : (env k).grew = true
          · rw [if_pos hg] at h
            exact ih (k + 1) _ 0 m b hple hpnd hpco h
          · rw [if_neg hg] at h
            exact ih (k + 1) _ 1 m b hple hpnd hpco h

theorem scrollLoopAux_isSome (env : Nat → ScanStep) (target : Nat) :
    ∀ fuel map retries k,
      retries ≤ 4 → map.length ≤ target →
      6 * (target - map.length) + (5 - retries) ≤ fuel →
      (scrollLoopAux env target fuel k map retries).isSome = true := by
  intro fuel
  induction fuel with
  | zero =>
    intro map retries k hret _ hmeas
    omega
  | succ fuel ih =>
    intro map retries k hret hlen hmeas
    rw [scrollLoopAux]
    by_cases hguard : target ≤ map.length
    · rw [if_pos hguard]; rfl
    · rw [if_neg hguard]
      have hlt : map.length < target := by omega
      have hple := mergeComments_le target (env k).visible map hlt
      have hplen := mergeComments_length target (env k).visible map
      by_cases hq : target ≤ (mergeComments target map (env k).visible).1.length
      · rw [if_pos hq]; rfl
      · rw [if_neg hq]
        by_cases hz : (mergeComments target map (env k).visible).2 = 0
        · rw [if_pos hz]
          have hsame : (mergeComments target map (env k).visible).1.length =
              map.length := by omega
          by_cases hr1 : 5 ≤ retries + 1
          · rw [if_pos hr1]; rfl
          · rw [if_neg hr1]
            by_cases hg : (env k).grew = true
            · rw [if_pos hg]
              refine ih _ (retries + 1) (k + 1) (by omega) (by omega) (by omega)
            · rw [if_neg hg]
              by_cases hr2 : 5 ≤ retries + 2
              · rw [if_pos hr2]; rfl
              · rw [if_neg hr2]
                refine ih _ (retries + 2) (k + 1) (by omega) (by omega) (by omega)
        · rw [if_neg hz]
          have hgrow : map.length <
              (mergeComments target map (env k).visible).1.length := by omega
          by_cases hg : (env k).grew = true
          · rw [if_pos hg]
            refine ih _ 0 (k + 1) (by omega) (by omega) (by omega)
          · rw [if_neg hg]
            refine ih _ 1 (k + 1) (by omega) (by omega) (by omega)

theorem scrollLoopAux_stall (env : Nat → ScanStep) (target : Nat)
    (henv : ∀ k, env k = { visible := [], grew := false }) (htgt : 0 < target) :
    ∀ f k, scrollLoopAux env target (f + 3) k [] 0 = some ([], true) := by
  have h0 : ¬ target ≤ 0 := by omega
  have h4 : ∀ f k, scrollLoopAux env target (f + 1) k [] 4 = some ([], true) := by
    intro f k
    rw [scrollLoopAux]
    simp [henv, mergeComments, h0]
  have h2 : ∀ f k, scrollLoopAux env target (f + 2) k [] 2 = some ([], true) := by
    intro f k
    rw [show f + 2 = f + 1 + 1 from rfl, scrollLoopAux]
    simp [henv, mergeComments, h0, h4]
  intro f k
  rw [show f + 3 = f + 2 + 1 from rfl, scrollLoopAux]
  simp [henv, mergeComments, h0, h2]

/-- C4: for every tweet and limit, getTweetComments returns at most the
limit, at most the page-reported reply total when that total is
available (the request is clamped before collecting), and the returned
items have pairwise-distinct identities: the stable tweet identifier
when present, else the handle-text composite. -/
theorem collect_replies_bounds (env : Nat → ScanStep) (count actual : Nat) :
    (getTweetCommentsModel env count actual).collected ≤ count ∧
    (0 < actual →
      (getTweetCommentsModel env count actual).collected ≤ min count actual) ∧
    ((getTweetCommentsModel env count actual).comments.map commentKey).Nodup := by
  have hsome := scrollLoopAux_isSome env (targetCount count actual)
    (6 * targetCount count actual + 6) [] 0 0 (by omega) (by simp) (by simp)
  rcases hres : scrollLoopAux env (targetCount count actual)
      (6 * targetCount count actual + 6) 0 [] 0 with _ | ⟨m, b⟩
  · rw [hres] at hsome; simp at hsome
  · have hinv := scrollLoopAux_inv env (targetCount count actual)
      (6 * targetCount count actual + 6) 0 [] 0 m b (by simp) (by simp)
      (by intro e he; simp at he) hres
    have hmapeq : (((m.take (targetCount count actual)).map Prod.snd).map
        commentKey) = (m.take (targetCount count actual)).map Prod.fst := by
      rw [List.map_map]
      refine List.map_congr_left ?_
      intro e he
      exact (hinv.2.2.1 e (List.mem_of_mem_take he)).symm
    have hnodup : ((m.take (targetCount count actual)).map Prod.fst).Nodup := by
      rw [List.map_take]
      exact List.Nodup.sublist (List.take_sublist _ _) hinv.2.1
    have htc : targetCount count actual ≤ count := Nat.min_le_left _ _
    refine ⟨?_, ?_, ?_⟩
    · simp [getTweetCommentsModel, hres]
      omega
    · intro hact
      have htc2 : targetCount count actual = min count actual := by
        unfold targetCount
        have : ¬ actual = 0 := by omega
        simp [this]
      simp [getTweetCommentsModel, hres]
      omega
    · simp only [getTweetCommentsModel, hres]
      rw [hmapeq]
      exact hnodup

theorem collect_replies_bounds_witness :
    (getTweetCommentsModel
        (fun _ => { visible := [{ tweetId := some "9" }], grew := true }) 2 1).collected ≤ 2 ∧
    (getTweetCommentsModel
        (fun _ => { visible := [{ tweetId := some "9" }], grew := true }) 2 1).collected ≤
      min 2 1 ∧
    ((getTweetCommentsModel
        (fun _ => { visible := [{ tweetId := some "9" }], grew := true }) 2 1).comments.map
      commentKey).Nodup := by
  refine ⟨(collect_replies_bounds _ 2 1).1,
    (collect_replies_bounds _ 2 1).2.1 (by decide),
    (collect_replies_bounds _ 2 1).2.2⟩

/-- C5: the scroll loop of getTweetComments always terminates — six
times the clamped target plus six fuel units are provably enough for an
arbitrary environment, because every iteration either adds a new
identity or advances the shared retry counter toward the ceiling of
five; the blocked flag is set exactly when the loop stopped short of
the target, returning the partial collection gracefully; and an
environment that never yields items and never grows the scroll extent
produces blocked with an empty collection. -/
theorem scroll_loop_termination (env : Nat → ScanStep) (count actual : Nat) :
    (scrollLoopAux env (targetCount count actual)
        (6 * targetCount count actual + 6) 0 [] 0).isSome = true ∧
    ((getTweetCommentsModel env count actual).scrollBlocked = true ↔
      (getTweetCommentsModel env count actual).collected <
        targetCount count actual) ∧
    ((∀ k, env k = { visible := [], grew := false }) →
      0 < targetCount count actual →
      (getTweetCommentsModel env count actual).scrollBlocked = true ∧
      (getTweetCommentsModel env count actual).comments = []) := by
  have hsome := scrollLoopAux_isSome env (targetCount count actual)
    (6 * targetCount count actual + 6) [] 0 0 (by omega) (by simp) (by simp)
  refine ⟨hsome, ?_, ?_⟩
  · rcases hres : scrollLoopAux env (targetCount count actual)
        (6 * targetCount count actual + 6) 0 [] 0 with _ | ⟨m, b⟩
    · rw [hres] at hsome; simp at hsome
    · have hinv := scrollLoopAux_inv env (targetCount count actual)
        (6 * targetCount count actual + 6) 0 [] 0 m b (by simp) (by simp)
        (by intro e he; simp at he) hres
      simp only [getTweetCommentsModel, hres]
      cases b
      · have hlen := hinv.2.2.2.2 rfl
        simp [hlen]
      · have hlen := hinv.2.2.2.1 rfl
        simp
        omega
  · intro henv htgt
    have hstall := scrollLoopAux_stall env (targetCount count actual) henv htgt
      (6 * targetCount count actual + 3) 0
    rw [show 6 * targetCount count actual + 3 + 3 =
      6 * targetCount count actual + 6 from rfl] at hstall
    simp [getTweetCommentsModel, hstall]

theorem scroll_loop_termination_witness :
    ((getTweetCommentsModel (fun _ => { visible := [], grew := false }) 3 0).scrollBlocked =
        true ∧
      (getTweetCommentsModel (fun _ => { visible := [], grew := false }) 3 0).comments =
        []) :=
  (scroll_loop_termination (fun _ => { visible := [], grew := false }) 3 0).2.2
    (fun _ => rfl) (by decide)

theorem mediaLoop_no_navigate (w : PostWorld) (ps : List String)
    (nu : String) (nt : Nat) : Effect.navigate nu nt ∉ (mediaLoop w ps).1 := by
  induction ps with
  | nil => simp [mediaLoop]
  | cons p rest ih =>
    rw [mediaLoop]
    by_cases hfe : w.fileExists p = true
    · by_cases hud : w.uploadDialog p = true
      · simp [hfe, hud]
      · simp [hfe, hud, ih]
    · simp [hfe]

theorem clickTestIdEff_no_navigate (present : Bool) (id nu : String) (nt : Nat) :
    Effect.navigate nu nt ∉ clickTestIdEff present id := by
  by_cases h : present = true <;> simp [clickTestIdEff, h]

theorem applyImageField_no_navigate (pw : ProfileWorld) (n : Nat)
    (o : Option String) (nu : String) (nt : Nat) :
    Effect.navigate nu nt ∉ (applyImageField pw n o).2 := by
  rcases o with _ | path
  · simp [applyImageField]
  · rw [applyImageField]
    by_cases hp : path = ""
    · simp [hp]
    · by_cases hn : n ≤ pw.fileInputCount
      · simp [hp, hn, clickTestIdEff_no_navigate]
      · simp [hp, hn]

theorem applyTextField_no_navigate (pw : ProfileWorld) (sel : String)
    (o : Option String) (nu : String) (nt : Nat) :
    Effect.navigate nu nt ∉ (applyTextField pw sel o).2 := by
  rcases o with _ | text
  · simp [applyTextField]
  · rw [applyTextField, fillFieldEff]
    by_cases hf : pw.fieldPresent sel = true <;> simp [hf]

theorem menuSelect_no_navigate (u' : String) (items : List String)
    (sel : List Effect) (hms : menuSelect u' items = some sel)
    (nu : String) (nt : Nat) : Effect.navigate nu nt ∉ sel := by
  rw [menuSelect] at hms
  split at hms
  · cases hms; simp
  · split at hms
    · cases hms; simp
    · simp at hms

theorem unfollowConfirmTrace_navs (u' : String) (w : UnfollowWorld)
    (t1 t2 : List Effect) (tmo : Nat) (h1 : navsUse tmo t1)
    (h2 : unfollowConfirmTrace u' w t1 = some t2) : navsUse tmo t2 := by
  rw [unfollowConfirmTrace] at h2
  split at h2
  · cases h2
    intro nu nt hm
    rcases List.mem_append.mp hm with hm | hm
    · exact h1 nu nt hm
    · simp at hm
  · split at h2
    · simp at h2
    · split at h2
      · simp at h2
      · rename_i sel hms
        cases h2
        intro nu nt hm
        rcases List.mem_append.mp hm with hm | hm
        · rcases List.mem_append.mp hm with hm | hm
          · exact h1 nu nt hm
          · exact absurd hm (menuSelect_no_navigate u' _ sel hms nu nt)
        · revert hm
          by_cases hc2 : w.confirmSheet2 = true <;> simp [hc2]

set_option maxHeartbeats 2000000 in
/-- C9: a missing or falsy timeout option resolves to 600000
milliseconds (ten minutes, not the 60000 the documentation table
states), a nonzero option is kept, and this single budget is the
timeout passed to every page navigation performed by the modelled
operations. -/
theorem timeout_default_and_usage :
    resolveTimeout none = 600000 ∧
    resolveTimeout (some 0) = 600000 ∧
    (∀ t, t ≠ 0 → resolveTimeout (some t) = t) ∧
    (∀ (s : BotState) (text : String) (media : List String) (w : PostWorld),
      navsUse s.timeoutMs (postTweetModel s text media w).2) ∧
    (∀ (s : BotState) (un : String) (w : FollowWorld),
      navsUse s.timeoutMs (followUserModel s un w).2) ∧
    (∀ (s : BotState) (un : String) (w : UnfollowWorld),
      navsUse s.timeoutMs (unfollowUserModel s un w).2) ∧
    (∀ (s : BotState) (q : String) (n : Nat) (w : SearchWorld),
      navsUse s.timeoutMs (searchAndLikeModel s q n w).2) ∧
    (∀ (s : BotState) (o : ProfileOptions) (pw : ProfileWorld),
      navsUse s.timeoutMs (setupProfileModel s o pw).2) ∧
    (∀ (s : BotState) (w : InitWorld),
      navsUse s.timeoutMs (initModel s w).2) := by
  refine ⟨rfl, rfl, ?_, ?_, ?_, ?_, ?_, ?_, ?_⟩
  · intro t ht; simp [resolveTimeout, ht]
  · intro s text media w nu nt hmem
    have hml := mediaLoop_no_navigate w media nu nt
    rw [postTweetModel] at hmem
    repeat' split at hmem
    all_goals
      try (by_cases hv : (verifyTweet text w.feedCells).found = false <;>
        simp_all [postFail])
  · intro s un w nu nt hmem
    rw [followUserModel] at hmem
    repeat' split at hmem
    all_goals simp_all
  · intro s un w nu nt hmem
    rw [unfollowUserModel] at hmem
    repeat' split at hmem
    all_goals try simp at hmem
    all_goals try exact hmem.2
    all_goals split at hmem
    all_goals try simp at hmem
    all_goals try exact hmem.2
    all_goals rename_i t2 heq
    all_goals
      have hnav : navsUse s.timeoutMs t2 := by
        refine unfollowConfirmTrace_navs _ w _ t2 s.timeoutMs ?_ heq
        intro a b hab
        simp at hab
        exact hab.2
    all_goals exact hnav nu nt hmem
  · intro s q n w nu nt hmem
    rw [searchAndLikeModel] at hmem
    repeat' split at hmem
    all_goals simp_all
  · intro s o pw nu nt hmem
    have h1 := applyImageField_no_navigate pw 1 o.header nu nt
    have h2 := applyImageField_no_navigate pw 2 o.avatar nu nt
    have h3 := applyTextField_no_navigate pw "displayName" o.displayName nu nt
    have h4 := applyTextField_no_navigate pw "description" o.bio nu nt
    have h5 := applyTextField_no_navigate pw "location" o.location nu nt
    have h6 := applyTextField_no_navigate pw "url" o.website nu nt
    have h7 := clickTestIdEff_no_navigate pw.saveButtonPresent
      "Profile_Save_Button" nu nt
    rw [setupProfileModel] at hmem
    repeat' split at hmem
    all_goals simp_all
  · intro s w nu nt hmem
    rw [initModel] at hmem
    repeat' split at hmem
    all_goals simp_all

theorem timeout_default_and_usage_witness :
    resolveTimeout (some 60000) = 60000 ∧ (600000 : Nat) = 600000 := by
  refine ⟨timeout_default_and_usage.2.2.1 60000 (by decide), ?_⟩
  exact timeout_default_and_usage.2.2.2.1
    { isReady := true, timeoutMs := 600000, username := "me" } "hi" []
    { textareaFound := true, fileInputFound := true,
      fileExists := fun _ => true, uploadDialog := fun _ => false,
      postButtonFound := true, composeCloses := true, toastText := "",
      feedCells := [] }
    "https://x.com/compose/post" 600000 (by decide)

/-- C10 amended: init never rejects — the modelled body is total, every
launch or navigation failure is surfaced as the error notification with
the instance still returned, and a login redirect is surfaced as
loginRequired; a call while already ready returns immediately with no
effects at all; and the readiness flag becomes true exactly when no
failure occurred, the landing URL shows no login redirect, and either
the sidebar landmark was found or the rechecked URL still shows no
login redirect — the landmark check alone failing does not prevent
readiness. -/
theorem init_outcome_characterization :
    (∀ (s : BotState) (w : InitWorld), s.isReady = true →
      initModel s w = (s, [])) ∧
    (∀ (s : BotState) (w : InitWorld),
      ((initModel s w).1.isReady = true ↔
        (s.isReady = true ∨
          (w.launchFail = none ∧ w.gotoFail = none ∧
           urlIsLogin w.url = false ∧
           (w.hasProfile = true ∨ urlIsLogin w.recheckUrl = false))))) ∧
    (∀ (s : BotState) (w : InitWorld) (e : String),
      s.isReady = false → w.launchFail = some e →
      initModel s w = (s, [Effect.emitEvent "error"])) ∧
    (∀ (s : BotState) (w : InitWorld) (e : String),
      s.isReady = false → w.launchFail = none → w.gotoFail = some e →
      Effect.emitEvent "error" ∈ (initModel s w).2 ∧
      (initModel s w).1.isReady = false) ∧
    (∀ (s : BotState) (w : InitWorld),
      s.isReady = false → w.launchFail = none → w.gotoFail = none →
      urlIsLogin w.url = true →
      (initModel s w).1.isReady = false ∧
      Effect.emitEvent "loginRequired" ∈ (initModel s w).2) := by
  refine ⟨?_, ?_, ?_, ?_, ?_⟩
  · intro s w hready
    simp [initModel, hready]
  · intro s w
    by_cases hready : s.isReady = true
    · simp [initModel, hready]
    · rcases hlf : w.launchFail with _ | e1
      · rcases hgf : w.gotoFail with _ | e2
        · by_cases hurl : urlIsLogin w.url = true
          · simp [initModel, hready, hlf, hgf, hurl]
          · by_cases hhp : w.hasProfile = true
            · simp [initModel, hready, hlf, hgf, hurl, hhp]
            · by_cases hrl : urlIsLogin w.recheckUrl = true
              · simp [initModel, hready, hlf, hgf, hurl, hhp, hrl]
              · simp [initModel, hready, hlf, hgf, hurl, hhp, hrl]
        · simp [initModel, hready, hlf, hgf]
      · simp [initModel, hready, hlf]
  · intro s w e hready hlf
    simp [initModel, hready, hlf]
  · intro s w e hready hlf hgf
    simp [initModel, hready, hlf, hgf]
  · intro s w hready hlf hgf hurl
    simp [initModel, hready, hlf, hgf, hurl]

/-- C10 counterexample: with a clean landing URL, a sidebar landmark
probe that fails, and a clean recheck URL, init still sets the
readiness flag and emits ready — so readiness does not require the DOM
landmark check to pass, contradicting the claim that the flag becomes
true only when both the URL check and the DOM landmark check pass. -/
theorem init_ready_without_landmark_counterexample :
    ((initModel { isReady := false, timeoutMs := 600000, username := "me" }
        { launchFail := none, gotoFail := none, url := "https://x.com/home",
          hasProfile := false, recheckUrl := "https://x.com/home" }).1.isReady =
      true) ∧
    ({ launchFail := none, gotoFail := none, url := "https://x.com/home",
       hasProfile := false,
       recheckUrl := "https://x.com/home" } : InitWorld).hasProfile = false ∧
    Effect.emitEvent "ready" ∈
      (initModel { isReady := false, timeoutMs := 600000, username := "me" }
        { launchFail := none, gotoFail := none, url := "https://x.com/home",
          hasProfile := false, recheckUrl := "https://x.com/home" }).2 := by
  refine ⟨rfl, rfl, ?_⟩
  decide

theorem init_outcome_characterization_witness :
    initModel { isReady := true, timeoutMs := 600000, username := "me" }
        { launchFail := none, gotoFail := none, url := "https://x.com/home",
          hasProfile := true, recheckUrl := "https://x.com/home" } =
      ({ isReady := true, timeoutMs := 600000, username := "me" }, []) :=
  init_outcome_characterization.1
    { isReady := true, timeoutMs := 600000, username := "me" }
    { launchFail := none, gotoFail := none, url := "https://x.com/home",
      hasProfile := true, recheckUrl := "https://x.com/home" } rfl

end XBot
